import Mathlib

/-!
Verification development for the genset-control firmware (src/main.cpp).

The firmware is single-threaded: a cooperative event loop runs every control
operation to completion before the next one starts, so each C++ function is
embedded as a pure state transformer on the record of global variables,
returning the new state together with the list of observable side effects
(relay GPIO writes, log emission, scheduler registrations).

Machine integers: durations and times are `uint32_t`/`unsigned long` in the
source.  They are modelled as `Nat`; `millis()` is monotone within a run and
every stored timestamp was a previous `millis()` value, so the wrapping
subtraction `now - lastChangeTime` agrees with truncated `Nat` subtraction
along all real executions (both are the true elapsed time).  `retryCount` is
`uint8_t`; the only writers store values in 0..10, modelled as `Nat`.
-/

namespace GensetControl

/-- Identity of a callback registered with the cooperative scheduler
(`event_loop.onDelay` in main.cpp): the K1-deassert completion of
`startGenerator`, the K2-deassert completion of `stopGenerator`, the
verification/retry check, and the LED-off blink. -/
inductive TaskId where
  | k1Release
  | k2Release
  | retryCheck
  | ledOff
  deriving DecidableEq, Repr

/-- Observable side effects of one control operation: relay and LED GPIO
writes (`digitalWrite`), log emission (`logMessage`), and scheduler
registrations (`event_loop.onDelay`). -/
inductive Effect where
  | writeK1 (v : Bool)
  | writeK2 (v : Bool)
  | writeLed (v : Bool)
  | log (msg : String)
  | schedule (delay : Nat) (task : TaskId)
  deriving DecidableEq, Repr

/-- The mutable globals of main.cpp that the control core reads and writes:
the two relay output pins and the LED, the signal-tracking state
(`lastStartState`, `lastStopState`, `runningState`), the configuration cache
(`allowStart`, `retryCount`, `powerUpDuration`, `powerDownDuration`), the
retry counter `retryStartCount`, and the interlock flags
`generatorStopping` / `generatorStarting`. -/
structure SysState where
  relayK1 : Bool
  relayK2 : Bool
  led : Bool
  lastStartState : Bool
  lastStopState : Bool
  runningState : Bool
  allowStart : Bool
  retryCount : Nat
  retryStartCount : Nat
  generatorStopping : Bool
  generatorStarting : Bool
  powerUpDuration : Nat
  powerDownDuration : Nat
  deriving DecidableEq, Repr

/-- The non-volatile storage (Preferences) namespace "Genset": whether
`preferences.begin` succeeds (`openable`), whether puts succeed (`writeOk`),
and the four stored keys (absent = never written, getters fall back to their
defaults). -/
structure Nvs where
  openable : Bool
  writeOk : Bool
  powerUpDuration : Option Nat
  powerDownDuration : Option Nat
  allowStart : Option Bool
  retryCount : Option Nat
  deriving DecidableEq, Repr

/-- `startGenerator` (main.cpp 381-414): refuse when start is disallowed,
when a stop is in progress, or when a start is already in progress;
otherwise raise K1, schedule the K1-deassert completion after
`powerUpDuration`, schedule a verification check after 15000 ms, and blink
the LED. -/
def startGenerator (s : SysState) : SysState × List Effect :=
  if s.allowStart = false then
    (s, [Effect.log ("[CONTROL] Generator is not allowed to start. Ignoring START signal")])
  else if s.generatorStopping = true then
    (s, [Effect.log ("[CONTROL] Generator is currently shutting down. Ignoring START signal")])
  else if s.generatorStarting = true then
    (s, [Effect.log ("[CONTROL] Generator start already in progress, ignoring duplicate request")])
  else
    ({ s with generatorStarting := true, relayK1 := true, led := true },
     [Effect.log ("[CONTROL] Starting generator..."),
      Effect.writeK1 true,
      Effect.schedule s.powerUpDuration TaskId.k1Release,
      Effect.schedule 15000 TaskId.retryCheck,
      Effect.writeLed true,
      Effect.schedule 2500 TaskId.ledOff])

/-- The K1-deassert completion scheduled by `startGenerator`
(main.cpp 403-407): lower K1, log completion, clear `generatorStarting`. -/
def k1ReleaseTask (s : SysState) : SysState × List Effect :=
  ({ s with relayK1 := false, generatorStarting := false },
   [Effect.writeK1 false, Effect.log ("[CONTROL] Generator started")])

/-- The K2-deassert completion scheduled by `stopGenerator`
(main.cpp 435-439): lower K2, log completion, clear `generatorStopping`. -/
def k2ReleaseTask (s : SysState) : SysState × List Effect :=
  ({ s with relayK2 := false, generatorStopping := false },
   [Effect.writeK2 false, Effect.log ("[CONTROL] Generator stopped")])

/-- The LED-off blink completion (main.cpp 413 / 442). -/
def ledOffTask (s : SysState) : SysState × List Effect :=
  ({ s with led := false }, [Effect.writeLed false])

/-- `stopGenerator` (main.cpp 417-443): no-op if a stop is already in
progress; otherwise cancel a pending start (clear `generatorStarting` and
lower K1), raise K2, lower K1 again, schedule the K2-deassert completion
after `powerDownDuration`, and blink the LED. -/
def stopGenerator (s : SysState) : SysState × List Effect :=
  if s.generatorStopping = true then
    (s, [Effect.log ("[CONTROL] Generator stop already in progress, ignoring duplicate request")])
  else
    let cancel : SysState × List Effect :=
      if s.generatorStarting = true then
        ({ s with generatorStarting := false, relayK1 := false }, [Effect.writeK1 false])
      else (s, [])
    ({ cancel.1 with generatorStopping := true, relayK2 := true, relayK1 := false, led := true },
     cancel.2 ++
       [Effect.log ("[CONTROL] Stopping generator..."),
        Effect.writeK2 true,
        Effect.writeK1 false,
        Effect.schedule s.powerDownDuration TaskId.k2Release,
        Effect.writeLed true,
        Effect.schedule 2500 TaskId.ledOff])

/-- `checkGeneratorStateAndRetry` (main.cpp 366-378): if starting is allowed,
the generator should be running (`lastStartState` high) but is not, and the
retry counter is below the limit, increment the counter, re-issue the start
sequence, and schedule another verification check after 15000 ms. -/
def checkGeneratorStateAndRetry (s : SysState) : SysState × List Effect :=
  if s.allowStart = true ∧ s.runningState = false ∧ s.lastStartState = true then
    if s.retryStartCount < s.retryCount then
      let s1 := { s with retryStartCount := s.retryStartCount + 1 }
      let r := startGenerator s1
      (r.1, Effect.log ("[CONTROL] Generator is not running. Retrying...") :: r.2
              ++ [Effect.schedule 15000 TaskId.retryCheck])
    else (s, [])
  else (s, [])

/-- The per-signal debounce state kept in the static locals of
`checkForSignals` and `checkRunningSignal`: time of the last raw change,
last raw reading, and the current debounced stable state. -/
structure DebounceState where
  lastChangeTime : Nat
  lastReading : Bool
  stableState : Bool
  deriving DecidableEq, Repr

/-- One debounce update as performed inline for the START and STOP signals in
`checkForSignals` (main.cpp 712-727): on a raw change record the change time
and the new reading; when the reading has been held strictly longer than the
50 ms window (`>` in the source), commit it as the stable state. -/
def debounceUpdate (d : DebounceState) (raw : Bool) (now : Nat) : DebounceState :=
  let d1 :=
    if raw ≠ d.lastReading then
      { d with lastChangeTime := now, lastReading := raw }
    else d
  if now - d1.lastChangeTime > 50 then { d1 with stableState := d1.lastReading } else d1

/-- Modelled from the spec (section 4.2, the algorithm the claim quotes):
identical to the source debouncer except that the window comparison is
`now - lastChangeTime >= debounceWindow`, i.e. non-strict. -/
def debounceSpecGe (d : DebounceState) (raw : Bool) (now : Nat) : DebounceState :=
  let d1 :=
    if raw ≠ d.lastReading then
      { d with lastChangeTime := now, lastReading := raw }
    else d
  if now - d1.lastChangeTime ≥ 50 then { d1 with stableState := d1.lastReading } else d1

/-- The spec algorithm of section 4.2 amended to use the source's strict
comparison `now - lastChangeTime > debounceWindow`. -/
def debounceSpecGt (d : DebounceState) (raw : Bool) (now : Nat) : DebounceState :=
  let d1 :=
    if raw ≠ d.lastReading then
      { d with lastChangeTime := now, lastReading := raw }
    else d
  if now - d1.lastChangeTime > 50 then { d1 with stableState := d1.lastReading } else d1

/-- `checkForSignals` (main.cpp 679-758) after its one-time initialization
tick: debounce both command signals, then (1) if STOP and START are both
stable-high, log a warning and return early (the stored `lastStartState` /
`lastStopState` are not updated); (2) on a STOP stable rising edge, run
`stopGenerator`, force `lastStartState` low and latch `lastStopState`;
(3) on a START stable rising edge while no stop is in progress, reset the
retry counter and run `startGenerator`; finally latch both last states. -/
def signalsTick (s : SysState) (dStart dStop : DebounceState) (rawStart rawStop : Bool)
    (now : Nat) : SysState × DebounceState × DebounceState × List Effect :=
  let dS := debounceUpdate dStart rawStart now
  let dP := debounceUpdate dStop rawStop now
  let curStart := dS.stableState
  let curStop := dP.stableState
  if curStop = true ∧ curStart = true then
    (s, dS, dP,
     [Effect.log ("[WARN] Generator stopped by priority STOP signal, ignoring simultaneous START signal")])
  else if curStop = true ∧ s.lastStopState = false then
    let r := stopGenerator s
    ({ r.1 with lastStartState := false, lastStopState := curStop }, dS, dP,
     Effect.log ("[STATUS] STOP signal detected") :: r.2)
  else
    let r :=
      if curStart = true ∧ s.lastStartState = false ∧ s.generatorStopping = false then
        let r0 := startGenerator { s with retryStartCount := 0 }
        (r0.1, Effect.log ("[STATUS] START signal detected") :: r0.2)
      else (s, ([] : List Effect))
    ({ r.1 with lastStartState := curStart, lastStopState := curStop }, dS, dP, r.2)

/-- `checkRunningSignal` (main.cpp 634-663), the body behind the
`runningSignalChanged` flag: debounce the RUNNING feedback line with the
same timed scheme and commit changes of the stable state into
`runningState`, logging each change. -/
def runningTick (s : SysState) (dRun : DebounceState) (raw : Bool) (now : Nat) :
    SysState × DebounceState × List Effect :=
  let d1 :=
    if raw ≠ dRun.lastReading then
      { dRun with lastChangeTime := now, lastReading := raw }
    else dRun
  if now - d1.lastChangeTime > 50 then
    if d1.stableState ≠ d1.lastReading then
      ({ s with runningState := d1.lastReading },
       { d1 with stableState := d1.lastReading },
       [Effect.log
         (if d1.lastReading then "[SIGNAL] Genset is running - signal HIGH"
          else "[SIGNAL] Genset is not running - signal LOW")])
    else (s, d1, [])
  else (s, d1, [])

/-- `setPowerUpDuration` (main.cpp 217-227).  The cache assignment was moved
in front of the return, so the in-memory value is updated whether or not the
NVS put succeeded; the returned flag is the put result.  Log emission is
elided (no claim observes it). -/
def setPowerUpDuration (s : SysState) (nvs : Nvs) (duration : Nat) : SysState × Nvs × Bool :=
  if nvs.openable = true then
    let nvs1 := if nvs.writeOk then { nvs with powerUpDuration := some duration } else nvs
    ({ s with powerUpDuration := duration }, nvs1, nvs.writeOk)
  else (s, nvs, false)

/-- `setPowerDownDuration` (main.cpp 256-266).  The cache assignment
`powerDownDuration = duration;` sits after the if/else whose branches both
return, so it is unreachable: the in-memory value is never updated by this
setter. -/
def setPowerDownDuration (s : SysState) (nvs : Nvs) (duration : Nat) : SysState × Nvs × Bool :=
  if nvs.openable = true then
    let nvs1 := if nvs.writeOk then { nvs with powerDownDuration := some duration } else nvs
    (s, nvs1, nvs.writeOk)
  else (s, nvs, false)

/-- `setAllowStart` (main.cpp 295-305): writes the flag to NVS and updates
the cache whether or not the put succeeded; returns the put result.  It does
not itself touch the controller (no `stopGenerator` call here). -/
def setAllowStart (s : SysState) (nvs : Nvs) (state : Bool) : SysState × Nvs × Bool :=
  if nvs.openable = true then
    let nvs1 := if nvs.writeOk then { nvs with allowStart := some state } else nvs
    ({ s with allowStart := state }, nvs1, nvs.writeOk)
  else (s, nvs, false)

/-- `setRetryCount` (main.cpp 334-344): writes the count to NVS and updates
the cache whether or not the put succeeded; returns the put result.  No
range validation happens here (that lives in the HTTP handler). -/
def setRetryCount (s : SysState) (nvs : Nvs) (count : Nat) : SysState × Nvs × Bool :=
  if nvs.openable = true then
    let nvs1 := if nvs.writeOk then { nvs with retryCount := some count } else nvs
    ({ s with retryCount := count }, nvs1, nvs.writeOk)
  else (s, nvs, false)

/-- `getPowerUpDuration` (main.cpp 238-245): on a successful open, load the
stored value (defaulting to the cache) into the cache and return it; on an
open failure, return the cached value unchanged. -/
def getPowerUpDuration (s : SysState) (nvs : Nvs) : SysState × Nat :=
  if nvs.openable = true then
    let v := nvs.powerUpDuration.getD s.powerUpDuration
    ({ s with powerUpDuration := v }, v)
  else (s, s.powerUpDuration)

/-- `getPowerDownDuration` (main.cpp 278-287): on a successful open, return
the stored value (defaulting to the cache) without updating the cache; on an
open failure, return 0. -/
def getPowerDownDuration (s : SysState) (nvs : Nvs) : SysState × Nat :=
  if nvs.openable = true then
    (s, nvs.powerDownDuration.getD s.powerDownDuration)
  else (s, 0)

/-- `getAllowStart` (main.cpp 313-322): on a successful open, load the
stored flag (defaulting to true) into the cache and return it; on an open
failure, return false without touching the cache. -/
def getAllowStart (s : SysState) (nvs : Nvs) : SysState × Bool :=
  if nvs.openable = true then
    let v := nvs.allowStart.getD true
    ({ s with allowStart := v }, v)
  else (s, false)

/-- `getRetryCount` (main.cpp 355-364): on a successful open, load the
stored count (defaulting to 3) into the cache and return it; on an open
failure, return 0 without touching the cache. -/
def getRetryCount (s : SysState) (nvs : Nvs) : SysState × Nat :=
  if nvs.openable = true then
    let v := nvs.retryCount.getD 3
    ({ s with retryCount := v }, v)
  else (s, 0)

/-- The NVS load in `setup` (main.cpp 858-861): assign each getter result
back into its global, in source order. -/
def setupNvsLoad (s : SysState) (nvs : Nvs) : SysState :=
  let ra := getAllowStart s nvs
  let s1 := { ra.1 with allowStart := ra.2 }
  let rc := getRetryCount s1 nvs
  let s2 := { rc.1 with retryCount := rc.2 }
  let ru := getPowerUpDuration s2 nvs
  let s3 := { ru.1 with powerUpDuration := ru.2 }
  let rd := getPowerDownDuration s3 nvs
  { rd.1 with powerDownDuration := rd.2 }

/-- Outcome of the `/setRetryCount` HTTP handler: a 400 rejection or a 200
acceptance. -/
inductive RcResult where
  | rejected (msg : String)
  | accepted (msg : String)
  deriving DecidableEq, Repr

/-- The `/setRetryCount` HTTP handler (main.cpp 560-573) given a present
`count` parameter: values outside 0..10 are rejected with a 400 before any
state is touched; in-range values are written to the cache and then through
`setRetryCount` to NVS. -/
def handleSetRetryCount (s : SysState) (nvs : Nvs) (count : Int) : SysState × Nvs × RcResult :=
  if count < 0 ∨ count > 10 then
    (s, nvs, RcResult.rejected ("Count must be between 0 and 10"))
  else
    let s1 := { s with retryCount := count.toNat }
    let r := setRetryCount s1 nvs count.toNat
    (r.1, r.2.1, RcResult.accepted ("Retry count set"))

/-- The `/disallowStart` HTTP handler (main.cpp 592-596): `setAllowStart
false` followed by `stopGenerator`. -/
def disallowStartHandler (s : SysState) (nvs : Nvs) : SysState × Nvs × List Effect :=
  let ra := setAllowStart s nvs false
  let rs := stopGenerator ra.1
  (rs.1, ra.2.1, rs.2)

/-- Weight 1 exactly on a K1 relay assertion (a write of HIGH to K1). -/
def k1AssertWeight : Effect → Nat
  | Effect.writeK1 true => 1
  | _ => 0

/-- Number of K1 relay assertions (writes of HIGH to K1) in an effect list. -/
def countK1Asserts (l : List Effect) : Nat := (l.map k1AssertWeight).sum

/-- Weight 1 exactly on a scheduler registration of the given task. -/
def schedWeight (t : TaskId) : Effect → Nat
  | Effect.schedule _ t2 => if t2 = t then 1 else 0
  | _ => 0

/-- Number of scheduler registrations of a given task in an effect list. -/
def schedCount (t : TaskId) (l : List Effect) : Nat := (l.map (schedWeight t)).sum

/-- Weight 1 on any scheduler registration. -/
def schedAnyWeight : Effect → Nat
  | Effect.schedule _ _ => 1
  | _ => 0

/-- Total number of scheduler registrations in an effect list. -/
def schedTotal (l : List Effect) : Nat := (l.map schedAnyWeight).sum

/-- Events that can occur between a START edge and the next fresh START
edge, as far as the retry supervision is concerned: a firing of the
verification check, a firing of one of the three scheduled completions, and
an externally commanded stop. -/
inductive SupEvent where
  | verifyCheck
  | k1Done
  | k2Done
  | ledDone
  | stopCmd
  deriving DecidableEq, Repr

/-- Dispatch of one supervision event to the operation it runs. -/
def supStep (s : SysState) : SupEvent → SysState × List Effect
  | SupEvent.verifyCheck => checkGeneratorStateAndRetry s
  | SupEvent.k1Done => k1ReleaseTask s
  | SupEvent.k2Done => k2ReleaseTask s
  | SupEvent.ledDone => ledOffTask s
  | SupEvent.stopCmd => stopGenerator s

/-- Run a list of supervision events, counting the K1 assertions they emit. -/
def runSup (s : SysState) : List SupEvent → SysState × Nat
  | [] => (s, 0)
  | e :: es =>
    let r := supStep s e
    let rest := runSup r.1 es
    (rest.1, countK1Asserts r.2 + rest.2)

/-- The complete world the event loop acts on: the globals, the NVS, and the
three per-signal debounce states. -/
structure World where
  sys : SysState
  nvs : Nvs
  dStart : DebounceState
  dStop : DebounceState
  dRun : DebounceState
  deriving DecidableEq, Repr

/-- One completed operation of the single-threaded event loop: an externally
commanded start or stop, a scheduled completion or retry callback, a
signal-check tick, a running-feedback tick, or one of the configuration
operations reachable from the control surface. -/
inductive Step : World → World → Prop where
  | startCmd (w : World) : Step w { w with sys := (startGenerator w.sys).1 }
  | stopCmd (w : World) : Step w { w with sys := (stopGenerator w.sys).1 }
  | k1Fire (w : World) : Step w { w with sys := (k1ReleaseTask w.sys).1 }
  | k2Fire (w : World) : Step w { w with sys := (k2ReleaseTask w.sys).1 }
  | ledFire (w : World) : Step w { w with sys := (ledOffTask w.sys).1 }
  | retryFire (w : World) : Step w { w with sys := (checkGeneratorStateAndRetry w.sys).1 }
  | signals (w : World) (rs rp : Bool) (now : Nat) :
      Step w { w with sys := (signalsTick w.sys w.dStart w.dStop rs rp now).1,
                      dStart := (signalsTick w.sys w.dStart w.dStop rs rp now).2.1,
                      dStop := (signalsTick w.sys w.dStart w.dStop rs rp now).2.2.1 }
  | runSig (w : World) (raw : Bool) (now : Nat) :
      Step w { w with sys := (runningTick w.sys w.dRun raw now).1,
                      dRun := (runningTick w.sys w.dRun raw now).2.1 }
  | allowSet (w : World) (b : Bool) :
      Step w { w with sys := (setAllowStart w.sys w.nvs b).1,
                      nvs := (setAllowStart w.sys w.nvs b).2.1 }
  | disallow (w : World) :
      Step w { w with sys := (disallowStartHandler w.sys w.nvs).1,
                      nvs := (disallowStartHandler w.sys w.nvs).2.1 }
  | retrySet (w : World) (c : Int) :
      Step w { w with sys := (handleSetRetryCount w.sys w.nvs c).1,
                      nvs := (handleSetRetryCount w.sys w.nvs c).2.1 }
  | puSet (w : World) (d : Nat) :
      Step w { w with sys := (setPowerUpDuration w.sys w.nvs d).1,
                      nvs := (setPowerUpDuration w.sys w.nvs d).2.1 }
  | pdSet (w : World) (d : Nat) :
      Step w { w with sys := (setPowerDownDuration w.sys w.nvs d).1,
                      nvs := (setPowerDownDuration w.sys w.nvs d).2.1 }
  | nvsLoad (w : World) : Step w { w with sys := setupNvsLoad w.sys w.nvs }

/-- The globals right after `setup` configured the pins (main.cpp 825-837):
both relays driven LOW, LED HIGH, interlock flags false, retry counter 0;
the signal-tracking and configuration values depend on pin reads and the
NVS load and are arbitrary here. -/
def bootSys (ls lp run allow : Bool) (rc pu pd : Nat) : SysState :=
  { relayK1 := false, relayK2 := false, led := true,
    lastStartState := ls, lastStopState := lp, runningState := run,
    allowStart := allow, retryCount := rc, retryStartCount := 0,
    generatorStopping := false, generatorStarting := false,
    powerUpDuration := pu, powerDownDuration := pd }

/-- Worlds reachable from some boot state through completed operations. -/
inductive Reach : World → Prop where
  | boot (ls lp run allow : Bool) (rc pu pd : Nat) (nvs : Nvs)
      (d1 d2 d3 : DebounceState) :
      Reach ⟨bootSys ls lp run allow rc pu pd, nvs, d1, d2, d3⟩
  | step {w w' : World} : Reach w → Step w w' → Reach w'

/-- The relay interlock invariant: K1 mirrors `generatorStarting`, K2
mirrors `generatorStopping`, and the two flags are never simultaneously
set. -/
def sysInv (s : SysState) : Prop :=
  s.relayK1 = s.generatorStarting ∧ s.relayK2 = s.generatorStopping ∧
    (s.generatorStarting = false ∨ s.generatorStopping = false)

lemma startGenerator_sysInv (s : SysState) (h : sysInv s) :
    sysInv (startGenerator s).1 := by
  unfold startGenerator sysInv at *
  split_ifs with h1 h2 h3 <;> simp_all

lemma stopGenerator_sysInv (s : SysState) (h : sysInv s) :
    sysInv (stopGenerator s).1 := by
  unfold stopGenerator sysInv at *
  split_ifs with h1 <;> simp_all

lemma k1ReleaseTask_sysInv (s : SysState) (h : sysInv s) :
    sysInv (k1ReleaseTask s).1 := by
  unfold k1ReleaseTask sysInv at *
  simp_all

lemma k2ReleaseTask_sysInv (s : SysState) (h : sysInv s) :
    sysInv (k2ReleaseTask s).1 := by
  unfold k2ReleaseTask sysInv at *
  simp_all

lemma checkGeneratorStateAndRetry_sysInv (s : SysState) (h : sysInv s) :
    sysInv (checkGeneratorStateAndRetry s).1 := by
  unfold checkGeneratorStateAndRetry
  split_ifs with h1 h2
  · exact startGenerator_sysInv _ (by unfold sysInv at *; simp_all)
  · exact h
  · exact h

lemma sysInv_config (s : SysState) (h : sysInv s) (a : Bool) (rc pu pd : Nat) :
    sysInv { s with allowStart := a, retryCount := rc,
                    powerUpDuration := pu, powerDownDuration := pd } := by
  unfold sysInv at *
  simp_all

lemma signalsTick_sysInv (s : SysState) (d1 d2 : DebounceState) (rs rp : Bool)
    (now : Nat) (h : sysInv s) : sysInv (signalsTick s d1 d2 rs rp now).1 := by
  unfold signalsTick
  dsimp only
  split_ifs with h1 h2 h3
  · exact h
  · have := stopGenerator_sysInv s h
    unfold sysInv at *
    simp_all
  · have hs : sysInv { s with retryStartCount := 0 } := by
      unfold sysInv at *
      simp_all
    have := startGenerator_sysInv _ hs
    unfold sysInv at *
    simp_all
  · unfold sysInv at *
    simp_all

lemma runningTick_sysInv (s : SysState) (d : DebounceState) (raw : Bool) (now : Nat)
    (h : sysInv s) : sysInv (runningTick s d raw now).1 := by
  unfold runningTick
  dsimp only
  split_ifs <;> (unfold sysInv at *; simp_all)

lemma setAllowStart_sysInv (s : SysState) (nvs : Nvs) (b : Bool) (h : sysInv s) :
    sysInv (setAllowStart s nvs b).1 := by
  unfold setAllowStart
  dsimp only
  split_ifs <;> (unfold sysInv at *; simp_all)

lemma setRetryCount_sysInv (s : SysState) (nvs : Nvs) (c : Nat) (h : sysInv s) :
    sysInv (setRetryCount s nvs c).1 := by
  unfold setRetryCount
  dsimp only
  split_ifs <;> (unfold sysInv at *; simp_all)

lemma setPowerUpDuration_sysInv (s : SysState) (nvs : Nvs) (d : Nat) (h : sysInv s) :
    sysInv (setPowerUpDuration s nvs d).1 := by
  unfold setPowerUpDuration
  dsimp only
  split_ifs <;> (unfold sysInv at *; simp_all)

lemma setPowerDownDuration_sysInv (s : SysState) (nvs : Nvs) (d : Nat) (h : sysInv s) :
    sysInv (setPowerDownDuration s nvs d).1 := by
  unfold setPowerDownDuration
  dsimp only
  split_ifs <;> (unfold sysInv at *; simp_all)

lemma handleSetRetryCount_sysInv (s : SysState) (nvs : Nvs) (c : Int) (h : sysInv s) :
    sysInv (handleSetRetryCount s nvs c).1 := by
  unfold handleSetRetryCount
  dsimp only
  split_ifs with h1
  · exact h
  · have := setRetryCount_sysInv { s with retryCount := c.toNat } nvs c.toNat
      (by unfold sysInv at *; simp_all)
    simpa using this

lemma disallowStartHandler_sysInv (s : SysState) (nvs : Nvs) (h : sysInv s) :
    sysInv (disallowStartHandler s nvs).1 := by
  unfold disallowStartHandler
  dsimp only
  exact stopGenerator_sysInv _ (setAllowStart_sysInv s nvs false h)

lemma setupNvsLoad_sysInv (s : SysState) (nvs : Nvs) (h : sysInv s) :
    sysInv (setupNvsLoad s nvs) := by
  unfold setupNvsLoad getAllowStart getRetryCount getPowerUpDuration getPowerDownDuration
  dsimp only
  split_ifs <;> (unfold sysInv at *; simp_all)

lemma step_sysInv {w w' : World} (h : sysInv w.sys) (hs : Step w w') : sysInv w'.sys := by
  cases hs with
  | startCmd => exact startGenerator_sysInv _ h
  | stopCmd => exact stopGenerator_sysInv _ h
  | k1Fire => exact k1ReleaseTask_sysInv _ h
  | k2Fire => exact k2ReleaseTask_sysInv _ h
  | ledFire => unfold ledOffTask sysInv at *; simp_all
  | retryFire => exact checkGeneratorStateAndRetry_sysInv _ h
  | signals rs rp now => exact signalsTick_sysInv _ _ _ _ _ _ h
  | runSig raw now => exact runningTick_sysInv _ _ _ _ h
  | allowSet b => exact setAllowStart_sysInv _ _ _ h
  | disallow => exact disallowStartHandler_sysInv _ _ h
  | retrySet c => exact handleSetRetryCount_sysInv _ _ _ h
  | puSet d => exact setPowerUpDuration_sysInv _ _ _ h
  | pdSet d => exact setPowerDownDuration_sysInv _ _ _ h
  | nvsLoad => exact setupNvsLoad_sysInv _ _ h

lemma reach_sysInv {w : World} (h : Reach w) : sysInv w.sys := by
  induction h with
  | boot ls lp run allow rc pu pd nvs d1 d2 d3 => unfold bootSys sysInv; simp
  | step _ hs ih => exact step_sysInv ih hs

lemma countK1Asserts_nil : countK1Asserts [] = 0 := rfl

lemma countK1Asserts_cons (e : Effect) (l : List Effect) :
    countK1Asserts (e :: l) = k1AssertWeight e + countK1Asserts l := by
  simp [countK1Asserts]

lemma countK1Asserts_append (a b : List Effect) :
    countK1Asserts (a ++ b) = countK1Asserts a + countK1Asserts b := by
  simp [countK1Asserts]

lemma schedCount_append (t : TaskId) (a b : List Effect) :
    schedCount t (a ++ b) = schedCount t a + schedCount t b := by
  simp [schedCount]

lemma countK1Asserts_log_cons (m : String) (l : List Effect) :
    countK1Asserts (Effect.log m :: l) = countK1Asserts l := by
  simp [countK1Asserts_cons, k1AssertWeight]

lemma startGenerator_retry_fields (s : SysState) :
    (startGenerator s).1.retryStartCount = s.retryStartCount ∧
    (startGenerator s).1.retryCount = s.retryCount ∧
    countK1Asserts (startGenerator s).2 ≤ 1 := by
  unfold startGenerator
  split_ifs <;> simp [countK1Asserts, k1AssertWeight]

lemma stopGenerator_retry_fields (s : SysState) :
    (stopGenerator s).1.retryStartCount = s.retryStartCount ∧
    (stopGenerator s).1.retryCount = s.retryCount ∧
    countK1Asserts (stopGenerator s).2 = 0 := by
  unfold stopGenerator
  dsimp only
  split_ifs <;> simp [countK1Asserts, k1AssertWeight]

lemma supStep_retry (s : SysState) (e : SupEvent) :
    (supStep s e).1.retryCount = s.retryCount ∧
    countK1Asserts (supStep s e).2 + s.retryStartCount ≤ (supStep s e).1.retryStartCount ∧
    (s.retryStartCount ≤ s.retryCount →
      (supStep s e).1.retryStartCount ≤ s.retryCount) := by
  cases e with
  | verifyCheck =>
    simp only [supStep]
    unfold checkGeneratorStateAndRetry
    dsimp only
    split_ifs with h1 h2
    · obtain ⟨hf1, hf2, hf3⟩ :=
        startGenerator_retry_fields { s with retryStartCount := s.retryStartCount + 1 }
      simp only at hf1 hf2
      simp only [countK1Asserts_cons, countK1Asserts_append]
      have hsched : k1AssertWeight (Effect.schedule 15000 TaskId.retryCheck) = 0 := rfl
      have hnil : countK1Asserts ([] : List Effect) = 0 := rfl
      have hlog :
          k1AssertWeight (Effect.log ("[CONTROL] Generator is not running. Retrying...")) = 0 :=
        rfl
      refine ⟨hf2, by omega, fun _ => by omega⟩
    · simp [countK1Asserts]
    · simp [countK1Asserts]
  | k1Done => simp [supStep, k1ReleaseTask, countK1Asserts, k1AssertWeight]
  | k2Done => simp [supStep, k2ReleaseTask, countK1Asserts, k1AssertWeight]
  | ledDone => simp [supStep, ledOffTask, countK1Asserts, k1AssertWeight]
  | stopCmd =>
    obtain ⟨hf1, hf2, hf3⟩ := stopGenerator_retry_fields s
    simp only [supStep]
    exact ⟨hf2, by omega, by omega⟩

lemma runSup_inv (es : List SupEvent) (s : SysState)
    (h : s.retryStartCount ≤ s.retryCount) :
    (runSup s es).1.retryCount = s.retryCount ∧
    (runSup s es).1.retryStartCount ≤ s.retryCount ∧
    (runSup s es).2 + s.retryStartCount ≤ (runSup s es).1.retryStartCount := by
  induction es generalizing s with
  | nil => simpa [runSup] using h
  | cons e es ih =>
    obtain ⟨hrc, hk, hcnt⟩ := supStep_retry s e
    have hle : (supStep s e).1.retryStartCount ≤ (supStep s e).1.retryCount := by
      rw [hrc]; exact hcnt h
    obtain ⟨ih1, ih2, ih3⟩ := ih (supStep s e).1 hle
    unfold runSup
    dsimp only
    refine ⟨by omega, by omega, by omega⟩

/-- A quiescent sample state matching the boot configuration of the globals
in main.cpp (allowStart = true, retryCount = 1, both durations 10000). -/
def cSys0 : SysState := bootSys false false false true 1 10000 10000

/-- A sample state in the middle of a start: `generatorStarting` set, K1
high, as left by a successful `startGenerator` call. -/
def cSysStarting : SysState := { cSys0 with generatorStarting := true, relayK1 := true }

/-- A sample state right after a fresh START stable rising edge with
`retryLimit = 2`: counter 0, commanded state high. -/
def cSysEdge : SysState := { cSys0 with retryCount := 2, lastStartState := true }

/-- Healthy NVS: opens and writes succeed; no keys stored yet. -/
def cNvs0 : Nvs := ⟨true, true, none, none, none, none⟩

/-- NVS that opens but whose puts fail. -/
def cNvsNoWrite : Nvs := ⟨true, false, none, none, none, none⟩

/-- NVS that cannot be opened at all. -/
def cNvsClosed : Nvs := ⟨false, true, none, none, none, none⟩

/-- Debounce state settled at stable low since time 0. -/
def cDeb0 : DebounceState := ⟨0, false, false⟩

/-- Debounce state settled at stable high since time 0. -/
def cDebHigh : DebounceState := ⟨0, true, true⟩

/-- Debounce state whose raw reading went high at time 0 but whose stable
state is still low (the settle period is still running). -/
def cDebSettling : DebounceState := ⟨0, true, false⟩

/-- A sample world at boot. -/
def cWorld0 : World := ⟨cSys0, cNvs0, cDeb0, cDeb0, cDeb0⟩

/-- Claim C10: starting from boot, after every completed operation of the
event loop (externally commanded start or stop, any scheduled completion or
retry callback, any signal-check or running-feedback tick, any
configuration operation), relays K1 and K2 are never both asserted:
`stopGenerator` deasserts K1 in the same operation that asserts K2, and
`startGenerator` refuses to assert K1 while a stop is in progress. -/
theorem relay_interlock_never_both (w : World) (h : Reach w) :
    ¬ (w.sys.relayK1 = true ∧ w.sys.relayK2 = true) := by
  have hi := reach_sysInv h
  unfold sysInv at hi
  rintro ⟨h1, h2⟩
  rcases hi with ⟨ha, hb, hc | hc⟩ <;> simp_all

/-- Witness for C10 at the concrete boot world. -/
theorem relay_interlock_never_both_witness :
    ¬ (cWorld0.sys.relayK1 = true ∧ cWorld0.sys.relayK2 = true) :=
  relay_interlock_never_both cWorld0
    (Reach.boot false false false true 1 10000 10000 cNvs0 cDeb0 cDeb0 cDeb0)

/-- Claim C2: for every retryLimit in 0..10, after a fresh START stable
rising edge (counter reset to 0), over any sequence of supervision events
the verification checks issue at most retryLimit additional start attempts
(K1 assertions), the counter never exceeds retryLimit, once the counter has
reached retryLimit a further verification check is a complete no-op, a
fresh START stable rising edge resets the counter to 0, and one
signal-check tick emits at most one K1 assertion (so at most retryLimit + 1
relay-assert sequences occur per edge). -/
theorem bounded_retries (L : Nat) (hL : L ≤ 10) (s : SysState)
    (hcnt : s.retryStartCount = 0) (hrc : s.retryCount = L) (es : List SupEvent) :
    (runSup s es).2 ≤ L ∧
    (runSup s es).1.retryStartCount ≤ L ∧
    (∀ s2 : SysState, s2.retryCount = L → s2.retryStartCount = L →
      checkGeneratorStateAndRetry s2 = (s2, [])) ∧
    (∀ (s0 : SysState) (d1 d2 : DebounceState) (rs rp : Bool) (now : Nat),
      (debounceUpdate d1 rs now).stableState = true →
      (debounceUpdate d2 rp now).stableState = false →
      s0.lastStartState = false → s0.generatorStopping = false →
      (signalsTick s0 d1 d2 rs rp now).1.retryStartCount = 0) ∧
    (∀ (s0 : SysState) (d1 d2 : DebounceState) (rs rp : Bool) (now : Nat),
      countK1Asserts (signalsTick s0 d1 d2 rs rp now).2.2.2 ≤ 1) := by
  obtain ⟨hi1, hi2, hi3⟩ := runSup_inv es s (by omega)
  refine ⟨by omega, by omega, ?_, ?_, ?_⟩
  · intro s2 h2rc h2cnt
    unfold checkGeneratorStateAndRetry
    split_ifs with hg hlt
    · omega
    · rfl
    · rfl
  · intro s0 d1 d2 rs rp now hst hsp hlast hstop
    unfold signalsTick
    dsimp only
    rw [hst, hsp]
    simp only [Bool.false_eq_true, and_false, false_and, if_false, hlast, hstop, and_self,
      if_true, true_and, and_true]
    rw [(startGenerator_retry_fields _).1]
  · intro s0 d1 d2 rs rp now
    unfold signalsTick
    dsimp only
    split_ifs with hg1 hg2 hg3
    · simp [countK1Asserts, k1AssertWeight]
    · rw [countK1Asserts_log_cons, (stopGenerator_retry_fields s0).2.2]
      omega
    · rw [countK1Asserts_log_cons]
      exact (startGenerator_retry_fields _).2.2
    · simp [countK1Asserts]

/-- Witness for C2: retryLimit 2, a fresh edge state, and a run of three
failed verification checks interleaved with completions. -/
theorem bounded_retries_witness :
    (runSup cSysEdge [SupEvent.verifyCheck, SupEvent.k1Done, SupEvent.verifyCheck,
      SupEvent.k1Done, SupEvent.verifyCheck]).2 ≤ 2 :=
  (bounded_retries 2 (by decide) cSysEdge rfl rfl
    [SupEvent.verifyCheck, SupEvent.k1Done, SupEvent.verifyCheck,
      SupEvent.k1Done, SupEvent.verifyCheck]).1

/-- Claim C1 (evaluation at the failing input): with the controller in
Starting and the debounced STOP and START signals both stable-high, the
signal-check tick logs the priority warning and returns early without
calling `stopGenerator`: the tick ends with the controller still Starting
and not Stopping, the whole state unchanged — although the claim (and the
log line the code emits there) says the stop transition is taken and the
tick ends in Stopping. -/
theorem both_high_tick_keeps_starting :
    (debounceUpdate cDebHigh true 100).stableState = true ∧
    cSysStarting.generatorStarting = true ∧
    cSysStarting.generatorStopping = false ∧
    (signalsTick cSysStarting cDebHigh cDebHigh true true 100).1 = cSysStarting ∧
    (signalsTick cSysStarting cDebHigh cDebHigh true true 100).1.generatorStarting = true ∧
    (signalsTick cSysStarting cDebHigh cDebHigh true true 100).1.generatorStopping = false :=
  ⟨rfl, rfl, rfl, rfl, rfl, rfl⟩

/-- Counterexample to C3: `setAllowStart false` on a controller that is
Starting leaves it Starting (the setter only touches NVS and the cached
flag; it never calls `stopGenerator`), and it is still Starting after the
next signal-check tick. -/
theorem setAllowStart_false_leaves_starting :
    (setAllowStart cSysStarting cNvs0 false).1.allowStart = false ∧
    (setAllowStart cSysStarting cNvs0 false).1.generatorStarting = true ∧
    (setAllowStart cSysStarting cNvs0 false).1.generatorStopping = false ∧
    (signalsTick (setAllowStart cSysStarting cNvs0 false).1
      cDeb0 cDeb0 false false 100).1.generatorStarting = true :=
  ⟨rfl, rfl, rfl, rfl⟩

lemma signalsTick_keeps_not_starting (s : SysState) (h1 : s.generatorStarting = false)
    (h2 : s.generatorStopping = true) (d1 d2 : DebounceState) (rs rp : Bool) (now : Nat) :
    (signalsTick s d1 d2 rs rp now).1.generatorStarting = false := by
  unfold signalsTick
  dsimp only
  split_ifs with hg1 hg2 hg3
  · exact h1
  · unfold stopGenerator
    dsimp only
    rw [if_pos h2]
    exact h1
  · exact absurd h2 (by simp [hg3.2.2])
  · exact h1

/-- Claim C3 amended: `setAllowStart(false)` itself performs no stop; it is
the `/disallowStart` handler — the code path through which start is
disabled — that calls `setAllowStart(false)` and then `stop()`.  After that
handler the controller is Stopping and never Starting, and it stays not
Starting through any subsequent signal-check tick. -/
theorem disallow_handler_stops (s : SysState) (nvs : Nvs)
    (h : s.generatorStarting = false ∨ s.generatorStopping = false) :
    (disallowStartHandler s nvs).1.generatorStarting = false ∧
    (disallowStartHandler s nvs).1.generatorStopping = true ∧
    (∀ (d1 d2 : DebounceState) (rs rp : Bool) (now : Nat),
      (signalsTick (disallowStartHandler s nvs).1 d1 d2 rs rp now).1.generatorStarting
        = false) := by
  have hmain : (disallowStartHandler s nvs).1.generatorStarting = false ∧
      (disallowStartHandler s nvs).1.generatorStopping = true := by
    unfold disallowStartHandler setAllowStart stopGenerator
    dsimp only
    rcases h with h | h <;> split_ifs <;> simp_all
  exact ⟨hmain.1, hmain.2, fun d1 d2 rs rp now =>
    signalsTick_keeps_not_starting _ hmain.1 hmain.2 d1 d2 rs rp now⟩

/-- Witness for C3 amended, run from the Starting sample state. -/
theorem disallow_handler_stops_witness :
    (disallowStartHandler cSysStarting cNvs0).1.generatorStarting = false ∧
    (disallowStartHandler cSysStarting cNvs0).1.generatorStopping = true :=
  ⟨(disallow_handler_stops cSysStarting cNvs0 (Or.inr rfl)).1,
   (disallow_handler_stops cSysStarting cNvs0 (Or.inr rfl)).2.1⟩

/-- Claim C4: `stop()` invoked while the controller is Starting immediately
deasserts K1, asserts K2, clears the Starting state, sets Stopping, and
schedules the stop-completion task `powerDownDuration` later; afterwards a
late firing of the previously scheduled K1-deassert task leaves the entire
state unchanged (K1 already low, Starting already cleared). -/
theorem stop_while_starting (s : SysState) (h1 : s.generatorStarting = true)
    (h2 : s.generatorStopping = false) :
    (stopGenerator s).1.relayK1 = false ∧
    (stopGenerator s).1.relayK2 = true ∧
    (stopGenerator s).1.generatorStarting = false ∧
    (stopGenerator s).1.generatorStopping = true ∧
    Effect.schedule s.powerDownDuration TaskId.k2Release ∈ (stopGenerator s).2 ∧
    (k1ReleaseTask (stopGenerator s).1).1 = (stopGenerator s).1 := by
  unfold stopGenerator k1ReleaseTask
  dsimp only
  rw [if_neg (by simp [h2]), if_pos h1]
  refine ⟨rfl, rfl, rfl, rfl, by simp, rfl⟩

/-- Witness for C4 at the Starting sample state. -/
theorem stop_while_starting_witness :
    (stopGenerator cSysStarting).1.relayK2 = true ∧
    (k1ReleaseTask (stopGenerator cSysStarting).1).1 = (stopGenerator cSysStarting).1 :=
  ⟨(stop_while_starting cSysStarting rfl rfl).2.1,
   (stop_while_starting cSysStarting rfl rfl).2.2.2.2.2⟩

/-- Claim C5 (evaluation at the failing inputs): the setters do not follow
the commit-only-on-success rule.  `setPowerDownDuration` persists the new
value and reports success yet never updates the in-memory cache (its cache
assignment sits after the return statement and is unreachable), and
`setPowerUpDuration` updates the in-memory cache even when the persistent
write fails and the setter reports failure. -/
theorem setter_cache_divergence :
    (setPowerDownDuration cSys0 cNvs0 5000).2.2 = true ∧
    (setPowerDownDuration cSys0 cNvs0 5000).2.1.powerDownDuration = some 5000 ∧
    (setPowerDownDuration cSys0 cNvs0 5000).1.powerDownDuration = 10000 ∧
    (setPowerUpDuration cSys0 cNvsNoWrite 7000).2.2 = false ∧
    (setPowerUpDuration cSys0 cNvsNoWrite 7000).1.powerUpDuration = 7000 :=
  ⟨rfl, rfl, rfl, rfl, rfl⟩

/-- Claim C6: the set-retry-limit operation (the `/setRetryCount` handler,
where the range validation lives) rejects every value outside 0..10 with a
400 error before any state change — in-memory cache and NVS are returned
untouched — and accepts values inside 0..10, storing them in the cache and,
when NVS is usable, persisting them. -/
theorem retry_limit_validation (s : SysState) (nvs : Nvs) (count : Int) :
    (count < 0 ∨ count > 10 →
      handleSetRetryCount s nvs count =
        (s, nvs, RcResult.rejected ("Count must be between 0 and 10"))) ∧
    (0 ≤ count → count ≤ 10 →
      (handleSetRetryCount s nvs count).1.retryCount = count.toNat ∧
      (nvs.openable = true → nvs.writeOk = true →
        (handleSetRetryCount s nvs count).2.1.retryCount = some count.toNat)) := by
  constructor
  · intro h
    unfold handleSetRetryCount
    rw [if_pos h]
  · intro h0 h10
    unfold handleSetRetryCount setRetryCount
    rw [if_neg (by omega)]
    dsimp only
    split_ifs with ho hw
    · exact ⟨rfl, fun _ _ => rfl⟩
    · exact ⟨rfl, fun _ hwr => absurd hwr (by simp [hw])⟩
    · exact ⟨rfl, fun hop _ => absurd hop (by simp [ho])⟩

/-- Witness for C6: 11 is rejected with no state change; 5 is accepted and
cached. -/
theorem retry_limit_validation_witness :
    handleSetRetryCount cSys0 cNvs0 11 =
      (cSys0, cNvs0, RcResult.rejected ("Count must be between 0 and 10")) ∧
    (handleSetRetryCount cSys0 cNvs0 5).1.retryCount = (5 : Int).toNat :=
  ⟨(retry_limit_validation cSys0 cNvs0 11).1 (Or.inr (by decide)),
   ((retry_limit_validation cSys0 cNvs0 5).2 (by decide) (by decide)).1⟩

/-- Claim C7: `start()` is idempotent while a start is in progress: with the
controller already Starting, a further `start()` call leaves the state
unchanged, asserts no relay and schedules no task; and from a startable
state, two consecutive `start()` calls produce exactly one K1 assertion and
schedule the K1-deassert completion (which emits the single completion log
line) exactly once. -/
theorem start_idempotent_while_starting (s : SysState) (h : s.generatorStarting = true) :
    (startGenerator s).1 = s ∧
    countK1Asserts (startGenerator s).2 = 0 ∧
    schedTotal (startGenerator s).2 = 0 ∧
    (∀ s0 : SysState, s0.allowStart = true → s0.generatorStopping = false →
      s0.generatorStarting = false →
      countK1Asserts ((startGenerator s0).2 ++ (startGenerator (startGenerator s0).1).2) = 1 ∧
      schedCount TaskId.k1Release
        ((startGenerator s0).2 ++ (startGenerator (startGenerator s0).1).2) = 1) := by
  refine ⟨?_, ?_, ?_, ?_⟩
  · unfold startGenerator
    split_ifs <;> simp_all
  · unfold startGenerator
    split_ifs <;> simp_all [countK1Asserts, k1AssertWeight]
  · unfold startGenerator
    split_ifs <;> simp_all [schedTotal, schedAnyWeight]
  · intro s0 ha hsp hst
    simp [startGenerator, ha, hsp, hst, countK1Asserts_append, countK1Asserts,
      schedCount_append, schedCount, k1AssertWeight, schedWeight]

/-- Witness for C7 at the Starting sample state: a duplicate call changes
nothing, and the startable sample state gets exactly one K1 assertion from
two calls. -/
theorem start_idempotent_while_starting_witness :
    (startGenerator cSysStarting).1 = cSysStarting ∧
    countK1Asserts ((startGenerator cSys0).2 ++
      (startGenerator (startGenerator cSys0).1).2) = 1 :=
  ⟨(start_idempotent_while_starting cSysStarting rfl).1,
   ((start_idempotent_while_starting cSysStarting rfl).2.2.2 cSys0 rfl rfl rfl).1⟩

/-- Counterexample to C8: at the exact window boundary — the raw reading
held for exactly 50 time-units — the source debouncer (strict `>`
comparison) does not commit the stable state, while the algorithm the claim
states (`>=` comparison) does. -/
theorem debounce_window_boundary_mismatch :
    (debounceUpdate cDebSettling true 50).stableState = false ∧
    (debounceSpecGe cDebSettling true 50).stableState = true ∧
    50 - cDebSettling.lastChangeTime ≥ 50 :=
  ⟨rfl, rfl, by decide⟩

/-- Claim C8 amended: the debouncer follows the stated algorithm with the
window comparison strict (`now - lastChangeTime > 50` rather than `>= 50`):
a changed raw reading records the change time and new value, and the stable
state is committed only when the reading has been held strictly longer than
the window — so whenever the stable state changes, the incoming raw reading
equals the recorded reading, more than 50 time-units have elapsed since the
last raw change, and the new stable state is that reading. -/
theorem debounce_follows_strict_algorithm (d : DebounceState) (raw : Bool) (now : Nat) :
    debounceUpdate d raw now = debounceSpecGt d raw now ∧
    ((debounceUpdate d raw now).stableState ≠ d.stableState →
      raw = d.lastReading ∧ now - d.lastChangeTime > 50 ∧
      (debounceUpdate d raw now).stableState = raw) := by
  refine ⟨rfl, ?_⟩
  intro hch
  unfold debounceUpdate at hch ⊢
  dsimp only at hch ⊢
  by_cases hr : raw = d.lastReading
  · have hd1 :
        (if raw ≠ d.lastReading then { d with lastChangeTime := now, lastReading := raw }
          else d) = d :=
      if_neg (by simp [hr])
    rw [hd1] at hch ⊢
    by_cases hw : now - d.lastChangeTime > 50
    · rw [if_pos hw] at hch ⊢
      exact ⟨hr, hw, hr.symm⟩
    · rw [if_neg hw] at hch
      exact absurd rfl hch
  · exfalso
    have hd1 :
        (if raw ≠ d.lastReading then { d with lastChangeTime := now, lastReading := raw }
          else d) = { d with lastChangeTime := now, lastReading := raw } :=
      if_pos (by simp [hr])
    rw [hd1] at hch
    rw [if_neg (by simp)] at hch
    exact hch rfl

/-- Witness for C8 amended: one time-unit past the window the stable state
commits and the stated conditions hold. -/
theorem debounce_follows_strict_algorithm_witness :
    true = cDebSettling.lastReading ∧ 51 - cDebSettling.lastChangeTime > 50 ∧
    (debounceUpdate cDebSettling true 51).stableState = true :=
  (debounce_follows_strict_algorithm cDebSettling true 51).2 (by decide)

/-- Counterexample to C9: with persistent storage unopenable, the boot-time
NVS load does not leave the control logic on the last-known cached values:
it writes the getters' failure sentinels into the cache, flipping the
cached allowStart from true to false and zeroing retryCount and
powerDownDuration. -/
theorem boot_load_clobbers_cache :
    cSys0.allowStart = true ∧
    cSys0.powerDownDuration = 10000 ∧
    (setupNvsLoad cSys0 cNvsClosed).allowStart = false ∧
    (setupNvsLoad cSys0 cNvsClosed).retryCount = 0 ∧
    (setupNvsLoad cSys0 cNvsClosed).powerDownDuration = 0 :=
  ⟨rfl, rfl, rfl, rfl, rfl⟩

/-- Claim C9 amended: when storage cannot be opened, each getter leaves the
cached globals untouched and returns a sentinel (`getPowerDownDuration` and
`getRetryCount` return 0, `getAllowStart` returns false, while
`getPowerUpDuration` returns the cached value and thus signals no failure);
the boot-time load then assigns those returns into the cache, so after a
failed boot load `allowStart` is false, `retryCount` is 0,
`powerDownDuration` is 0 and only `powerUpDuration` keeps its cached
value. -/
theorem getters_on_closed_storage (s : SysState) (nvs : Nvs) (h : nvs.openable = false) :
    getPowerUpDuration s nvs = (s, s.powerUpDuration) ∧
    getPowerDownDuration s nvs = (s, 0) ∧
    getAllowStart s nvs = (s, false) ∧
    getRetryCount s nvs = (s, 0) ∧
    setupNvsLoad s nvs =
      { s with allowStart := false, retryCount := 0, powerDownDuration := 0 } := by
  have g1 : ∀ t : SysState, getAllowStart t nvs = (t, false) := fun t => by
    unfold getAllowStart
    rw [if_neg (by simp [h])]
  have g2 : ∀ t : SysState, getRetryCount t nvs = (t, 0) := fun t => by
    unfold getRetryCount
    rw [if_neg (by simp [h])]
  have g3 : ∀ t : SysState, getPowerUpDuration t nvs = (t, t.powerUpDuration) := fun t => by
    unfold getPowerUpDuration
    rw [if_neg (by simp [h])]
  have g4 : ∀ t : SysState, getPowerDownDuration t nvs = (t, 0) := fun t => by
    unfold getPowerDownDuration
    rw [if_neg (by simp [h])]
  refine ⟨g3 s, g4 s, g1 s, g2 s, ?_⟩
  unfold setupNvsLoad
  simp only [g1, g2, g3, g4]

/-- Witness for C9 amended at the closed sample NVS. -/
theorem getters_on_closed_storage_witness :
    getAllowStart cSys0 cNvsClosed = (cSys0, false) :=
  (getters_on_closed_storage cSys0 cNvsClosed rfl).2.2.1

end GensetControl
